import Mathlib

/-!
Verification of the repair-service SLA pipeline.

The program computes, for each repair record, the number of business days
(weekdays that are not public holidays of the record's country) between a
start date and an end date, classifies the record as Hit or Miss against a
per-country lead-time threshold, and aggregates hit/miss counts per country.

Calendar dates are embedded as natural numbers counting days since
1970-01-01 (a Thursday), so that the Python `date.weekday()` convention
(Monday = 0, ..., Sunday = 6) becomes `(d + 3) % 7`.  Holiday data is
embedded as an association list from ISO country codes to finite sets of
day numbers, mirroring the `holiday_set_by_country` dictionary built by
`RepairAnalysisEngine._prepare_holiday_lookup` and the per-country filter
of the holiday data frame.
-/

/-- Weekday of a day number (days since 1970-01-01, which was a Thursday)
in the Python convention of `date.weekday()`: Monday = 0, ..., Sunday = 6. -/
def pyWeekday (d : Nat) : Nat := (d + 3) % 7

/-- Embeds `pd.date_range(start=start_date, end=end_date, freq='D')`: the list
of all calendar days from `start_date` to `end_date`, both inclusive, and the
empty list when `start_date > end_date`. -/
def date_range (start_date end_date : Nat) : List Nat :=
  if start_date ≤ end_date then
    (List.range (end_date + 1 - start_date)).map (· + start_date)
  else
    []

/-- The fixed `COUNTRY_MAPPING` / `country_code_map` dictionary from full
country names to ISO codes; `none` embeds a failed `dict.get`. -/
def COUNTRY_MAPPING (country_name : String) : Option String :=
  if country_name = "Slovakia" then some "SK"
  else if country_name = "Czechia" then some "CZ"
  else if country_name = "Austria" then some "AT"
  else if country_name = "Germany" then some "DE"
  else none

/-- Per-country holiday sets, as an association list from ISO country code to
the set of holiday day numbers: the `holiday_set_by_country` dictionary. -/
abbrev HolidayMap := List (String × Finset Nat)

/-- Embeds `self.holiday_set_by_country.get(country_code, set())` where
`country_code` may be `None` (an unmapped country name): any lookup miss
yields the empty set. -/
def getHolidaySet (hm : HolidayMap) (country_code : Option String) : Finset Nat :=
  match country_code with
  | none => ∅
  | some c => (hm.lookup c).getD ∅

/-- Embeds `RepairAnalysisEngine._calculate_business_days` of `lenovo_task.py`:
map the country name to a code, fetch that code's holiday set (empty on any
miss), iterate all days of the inclusive interval and count those whose
weekday is Monday to Friday and that are not in the holiday set. -/
def calculate_business_days_lenovo (hm : HolidayMap) (start_date end_date : Nat)
    (country_name : String) : Nat :=
  let country_code := COUNTRY_MAPPING country_name
  let holidays := getHolidaySet hm country_code
  let all_days := date_range start_date end_date
  all_days.countP (fun d => decide (pyWeekday d < 5 ∧ d ∉ holidays))

/-- Embeds `calculate_business_days` of `puthon_task.py`: when the country name
does not resolve via the code map it returns the length of the full calendar
interval (`return len(dates)`); otherwise it counts the weekdays of the
interval that are not holidays of the resolved country. -/
def calculate_business_days_puthon (hm : HolidayMap) (start_date end_date : Nat)
    (country : String) : Nat :=
  let dates := date_range start_date end_date
  match COUNTRY_MAPPING country with
  | none => dates.length
  | some code =>
    let country_holidays := (hm.lookup code).getD ∅
    dates.countP (fun d => decide (pyWeekday d < 5 ∧ d ∉ country_holidays))

/-- Embeds `np.busday_count(begindates, enddates, holidays=...)` with the
default Monday-Friday weekmask: the number of weekdays not in `holidays` in
the half-open interval `[begind, endd)`; when `endd` is earlier than `begind`,
numpy documents the count as negative, counting the interval `[endd, begind)`
backwards. -/
def np_busday_count (begind endd : Nat) (holidays : Finset Nat) : Int :=
  if begind ≤ endd then
    (((List.range (endd - begind)).map (· + begind)).countP
      (fun d => decide (pyWeekday d < 5 ∧ d ∉ holidays)) : Int)
  else
    - (((List.range (begind - endd)).map (· + endd)).countP
      (fun d => decide (pyWeekday d < 5 ∧ d ∉ holidays)) : Int)

/-- Embeds `business_days` of `python_task_solution.py`: look up the holiday
dates of the country code and call `np.busday_count(start_date.date(),
(end_date + 1 day).date(), holidays=country_holidays)`. -/
def business_days_solution (hm : HolidayMap) (start_date end_date : Nat)
    (country : String) : Int :=
  let country_holidays := (hm.lookup country).getD ∅
  np_busday_count start_date (end_date + 1) country_holidays

/-- Specification-side count, written from the words of the spec: the number
of calendar dates `d` in the closed interval `[start_date, end_date]` such
that the weekday of `d` is Monday through Friday and `d` is not a member of
the holiday set `H`. -/
def specBusinessDayCount (start_date end_date : Nat) (H : Finset Nat) : Nat :=
  ((Finset.Icc start_date end_date).filter (fun d => pyWeekday d < 5 ∧ d ∉ H)).card

/-- Hit / Miss classification outcome. -/
inductive Status where
  | Hit
  | Miss
  deriving DecidableEq

/-- Embeds the pandas comparison `row['BusinessDays'] <= row['LeadTime']`.
After the left merge, a record whose country has no lead-time row carries NaN
as its lead time (embedded as `none`), and in Python any `<=` comparison with
NaN evaluates to False. -/
def leNaN (b : Nat) (t : Option Nat) : Bool :=
  match t with
  | some v => b ≤ v
  | none => false

/-- Embeds the Hit/Miss step of `RepairAnalysisEngine.determine_hit_miss` and
of `np.where(merged["BusinessDays"] <= merged["LeadTime"], "Hit", "Miss")`:
Hit when the business-day count is at most the lead time, else Miss. -/
def determine_hit_miss (business_days : Nat) (lead_time : Option Nat) : Status :=
  if leNaN business_days lead_time then Status.Hit else Status.Miss

/-- One row of the RawData sheet: a repair record. -/
structure RepairRecord where
  id : String
  country : String
  start_date : Nat
  end_date : Nat
  deriving DecidableEq

/-- One row of `results_df` after Tasks 3b-3d: the repair record joined with
its business-day count, its (possibly missing) lead time, and its status. -/
structure ResultRow where
  id : String
  country : String
  business_days : Nat
  lead_time : Option Nat
  status : Status
  deriving DecidableEq

/-- Embeds the left merge of Task 3c, `pd.merge(..., on='Country',
how='left')`, for a lead-time table with one row per country: the matching
lead time, or NaN (`none`) when the country has no row. -/
def merge_lead_time (lead_times : List (String × Nat)) (country : String) :
    Option Nat :=
  lead_times.lookup country

/-- The record-level pipeline of Tasks 3b-3d in `lenovo_task.py`: every repair
record receives a business-day count, a merged lead time, and a Hit/Miss
status; no record is dropped and no step raises. -/
def run_pipeline (hm : HolidayMap) (lead_times : List (String × Nat))
    (records : List RepairRecord) : List ResultRow :=
  records.map (fun r =>
    let b := calculate_business_days_lenovo hm r.start_date r.end_date r.country
    let t := merge_lead_time lead_times r.country
    { id := r.id, country := r.country, business_days := b, lead_time := t,
      status := determine_hit_miss b t })

/-- Embeds Python `round(x, 2)` on rationals: scale by 100, round to the
nearest integer, scale back.  (Python rounds floating-point ties to even;
exact ties do not occur in the statements below, so the tie rule is
immaterial.) -/
def round2 (q : ℚ) : ℚ := ((round (q * 100) : ℤ) : ℚ) / 100

/-- One row of the country-level aggregation of Task 3e. -/
structure CountryAggregate where
  country : String
  hit_count : Nat
  miss_count : Nat
  hit_rate_pct : ℚ
  deriving DecidableEq

/-- Embeds `RepairAnalysisEngine.aggregate_by_country`: iterate the distinct
countries of the result rows in sorted order (`sorted(... .unique())`); for
each, count Hit rows and Miss rows, compute the hit rate as
`hit / total * 100` guarded by `if total_count > 0 else 0`, and round it to
two decimals. -/
def aggregate_by_country (rows : List ResultRow) : List CountryAggregate :=
  ((rows.map (fun r => r.country)).toFinset.sort (· ≤ ·)).map (fun c =>
    let hit_count := rows.countP (fun r => decide (r.country = c ∧ r.status = Status.Hit))
    let miss_count := rows.countP (fun r => decide (r.country = c ∧ r.status = Status.Miss))
    let total_count := hit_count + miss_count
    let hit_rate : ℚ := if 0 < total_count then (hit_count : ℚ) / (total_count : ℚ) * 100 else 0
    { country := c, hit_count := hit_count, miss_count := miss_count,
      hit_rate_pct := round2 hit_rate })

/- ------------------------------------------------------------------ -/
/- Helper lemmas about the date-range iteration.                       -/
/- ------------------------------------------------------------------ -/

theorem mem_date_range {start_date end_date d : Nat} (h : start_date ≤ end_date) :
    d ∈ date_range start_date end_date ↔ start_date ≤ d ∧ d ≤ end_date := by
  simp only [date_range, if_pos h, List.mem_map, List.mem_range]
  constructor
  · rintro ⟨i, hi, rfl⟩
    omega
  · intro hd
    exact ⟨d - start_date, by omega, by omega⟩

theorem nodup_date_range (start_date end_date : Nat) :
    (date_range start_date end_date).Nodup := by
  unfold date_range
  split
  · exact (List.nodup_range _).map (add_left_injective start_date)
  · exact List.nodup_nil

theorem toFinset_date_range (start_date end_date : Nat) (h : start_date ≤ end_date) :
    (date_range start_date end_date).toFinset = Finset.Icc start_date end_date := by
  ext d
  simp [mem_date_range h]

theorem countP_date_range_eq_spec (start_date end_date : Nat) (H : Finset Nat)
    (h : start_date ≤ end_date) :
    (date_range start_date end_date).countP
        (fun d => decide (pyWeekday d < 5 ∧ d ∉ H))
      = specBusinessDayCount start_date end_date H := by
  classical
  rw [List.countP_eq_length_filter]
  have hnd : ((date_range start_date end_date).filter
      (fun d => decide (pyWeekday d < 5 ∧ d ∉ H))).Nodup :=
    (nodup_date_range start_date end_date).filter _
  rw [← List.toFinset_card_of_nodup hnd, List.toFinset_filter,
    toFinset_date_range start_date end_date h]
  unfold specBusinessDayCount
  congr 1
  apply Finset.filter_congr
  intro d _
  simp

/- ------------------------------------------------------------------ -/
/- Claim theorems: the counting core.                                  -/
/- ------------------------------------------------------------------ -/

/-- C1: for every start date and end date with start ≤ end, every country name
that resolves to a code, and every holiday map, both per-day implementations
return exactly the number of calendar dates in the closed interval whose
weekday is Monday through Friday and that are not in that country's holiday
set. -/
theorem C1_business_day_count (hm : HolidayMap) (start_date end_date : Nat)
    (country_name code : String) (h : start_date ≤ end_date)
    (hmap : COUNTRY_MAPPING country_name = some code) :
    calculate_business_days_lenovo hm start_date end_date country_name
      = specBusinessDayCount start_date end_date ((hm.lookup code).getD ∅) ∧
    calculate_business_days_puthon hm start_date end_date country_name
      = specBusinessDayCount start_date end_date ((hm.lookup code).getD ∅) := by
  unfold calculate_business_days_lenovo calculate_business_days_puthon
  rw [hmap]
  exact ⟨countP_date_range_eq_spec _ _ _ h, countP_date_range_eq_spec _ _ _ h⟩

/-- C1 witness: AT has 2020-01-01 (day 18262, a Wednesday) as a holiday; in
the week 2019-12-30 (day 18260, Monday) to 2020-01-05 (day 18266, Sunday)
there are 5 weekdays and one of them is the holiday, so the count is 4. -/
theorem C1_business_day_count_witness :
    specBusinessDayCount 18260 18266 ({18262} : Finset Nat) = 4 ∧
    calculate_business_days_lenovo [("AT", ({18262} : Finset Nat))] 18260 18266 "Austria"
      = specBusinessDayCount 18260 18266
        (((([("AT", ({18262} : Finset Nat))] : HolidayMap).lookup "AT").getD ∅)) ∧
    calculate_business_days_puthon [("AT", ({18262} : Finset Nat))] 18260 18266 "Austria"
      = specBusinessDayCount 18260 18266
        (((([("AT", ({18262} : Finset Nat))] : HolidayMap).lookup "AT").getD ∅)) :=
  ⟨by decide,
   (C1_business_day_count [("AT", {18262})] 18260 18266 "Austria" "AT"
      (by decide) (by decide)).1,
   (C1_business_day_count [("AT", {18262})] 18260 18266 "Austria" "AT"
      (by decide) (by decide)).2⟩

/-- C7: a resolved country code with no entry in the holiday map is treated as
having an empty holiday set: the count still excludes weekends and holidays
contribute nothing, in both per-day implementations. -/
theorem C7_unknown_country_empty_holidays (hm : HolidayMap) (start_date end_date : Nat)
    (country_name code : String) (h : start_date ≤ end_date)
    (hmap : COUNTRY_MAPPING country_name = some code)
    (hnone : hm.lookup code = none) :
    calculate_business_days_lenovo hm start_date end_date country_name
      = specBusinessDayCount start_date end_date ∅ ∧
    calculate_business_days_puthon hm start_date end_date country_name
      = specBusinessDayCount start_date end_date ∅ := by
  simp only [calculate_business_days_lenovo, calculate_business_days_puthon,
    getHolidaySet, hmap, hnone, Option.getD_none]
  exact ⟨countP_date_range_eq_spec _ _ _ h, countP_date_range_eq_spec _ _ _ h⟩

/-- C7 witness: the map holds only AT holidays, the record is for Germany
(code DE, no entry), week 18260..18266 has 5 weekdays, none removed. -/
theorem C7_unknown_country_empty_holidays_witness :
    specBusinessDayCount 18260 18266 (∅ : Finset Nat) = 5 ∧
    calculate_business_days_lenovo [("AT", ({18262} : Finset Nat))] 18260 18266 "Germany"
      = specBusinessDayCount 18260 18266 ∅ ∧
    calculate_business_days_puthon [("AT", ({18262} : Finset Nat))] 18260 18266 "Germany"
      = specBusinessDayCount 18260 18266 ∅ :=
  ⟨by decide,
   (C7_unknown_country_empty_holidays [("AT", {18262})] 18260 18266 "Germany" "DE"
      (by decide) (by decide) (by decide)).1,
   (C7_unknown_country_empty_holidays [("AT", {18262})] 18260 18266 "Germany" "DE"
      (by decide) (by decide) (by decide)).2⟩

/- ------------------------------------------------------------------ -/
/- Monotonicity in the end date.                                       -/
/- ------------------------------------------------------------------ -/

theorem date_range_append (start_date e1 e2 : Nat) (h1 : start_date ≤ e1)
    (h2 : e1 ≤ e2) :
    date_range start_date e2 = date_range start_date e1
      ++ (List.range (e2 - e1)).map (fun j => e1 + 1 - start_date + j + start_date) := by
  have he : e2 + 1 - start_date = (e1 + 1 - start_date) + (e2 - e1) := by omega
  simp only [date_range, if_pos h1, if_pos (le_trans h1 h2), he, List.range_add,
    List.map_append, List.map_map]
  rfl

theorem length_date_range (start_date end_date : Nat) (h : start_date ≤ end_date) :
    (date_range start_date end_date).length = end_date + 1 - start_date := by
  simp [date_range, if_pos h]

/-- C8: with the start date, country and holiday map fixed, extending the end
date never decreases the business-day count of either per-day implementation. -/
theorem C8_monotone_in_end_date (hm : HolidayMap) (start_date e1 e2 : Nat)
    (country_name : String) (h1 : start_date ≤ e1) (h2 : e1 ≤ e2) :
    calculate_business_days_lenovo hm start_date e1 country_name
      ≤ calculate_business_days_lenovo hm start_date e2 country_name ∧
    calculate_business_days_puthon hm start_date e1 country_name
      ≤ calculate_business_days_puthon hm start_date e2 country_name := by
  have hcount : ∀ p : Nat → Bool,
      (date_range start_date e1).countP p ≤ (date_range start_date e2).countP p := by
    intro p
    rw [date_range_append start_date e1 e2 h1 h2, List.countP_append]
    exact Nat.le_add_right _ _
  have hlen : (date_range start_date e1).length ≤ (date_range start_date e2).length := by
    rw [length_date_range _ _ h1, length_date_range _ _ (le_trans h1 h2)]
    omega
  constructor
  · unfold calculate_business_days_lenovo
    exact hcount _
  · unfold calculate_business_days_puthon
    cases COUNTRY_MAPPING country_name with
    | none => exact hlen
    | some code => exact hcount _

/-- C8 witness: Austria with no holidays, Monday day 18260 fixed as start;
ends Wednesday 18262 and Sunday 18266 give counts 3 ≤ 5 for both
implementations. -/
theorem C8_monotone_in_end_date_witness :
    calculate_business_days_lenovo [] 18260 18262 "Austria" = 3 ∧
    calculate_business_days_lenovo [] 18260 18266 "Austria" = 5 ∧
    calculate_business_days_lenovo [] 18260 18262 "Austria"
      ≤ calculate_business_days_lenovo [] 18260 18266 "Austria" ∧
    calculate_business_days_puthon [] 18260 18262 "Austria"
      ≤ calculate_business_days_puthon [] 18260 18266 "Austria" :=
  ⟨by decide, by decide,
   (C8_monotone_in_end_date [] 18260 18262 18266 "Austria" (by decide) (by decide)).1,
   (C8_monotone_in_end_date [] 18260 18262 18266 "Austria" (by decide) (by decide)).2⟩

/- ------------------------------------------------------------------ -/
/- Agreement of the per-day loop with np.busday_count.                 -/
/- ------------------------------------------------------------------ -/

/-- C10: for start ≤ end, the per-day iteration of `lenovo_task.py` and the
`np.busday_count(start, end + 1 day, holidays)` call of
`python_task_solution.py` return the same integer, when both draw the holiday
set of the same resolved country code from the same holiday map. -/
theorem C10_loop_agrees_with_busday_count (hm : HolidayMap) (start_date end_date : Nat)
    (country_name code : String) (h : start_date ≤ end_date)
    (hmap : COUNTRY_MAPPING country_name = some code) :
    (calculate_business_days_lenovo hm start_date end_date country_name : Int)
      = business_days_solution hm start_date end_date code := by
  unfold calculate_business_days_lenovo business_days_solution np_busday_count
  rw [hmap]
  unfold getHolidaySet
  rw [if_pos (by omega : start_date ≤ end_date + 1)]
  simp only [date_range, if_pos h]

/-- C10 witness: AT with New Year 18262 as holiday over 18260..18266: the loop
gives 4 and the busday-count embedding gives 4 as well. -/
theorem C10_loop_agrees_with_busday_count_witness :
    business_days_solution [("AT", ({18262} : Finset Nat))] 18260 18266 "AT" = 4 ∧
    (calculate_business_days_lenovo [("AT", ({18262} : Finset Nat))] 18260 18266 "Austria" : Int)
      = business_days_solution [("AT", ({18262} : Finset Nat))] 18260 18266 "AT" :=
  ⟨by decide,
   C10_loop_agrees_with_busday_count [("AT", {18262})] 18260 18266 "Austria" "AT"
     (by decide) (by decide)⟩

/- ------------------------------------------------------------------ -/
/- Behavior on inverted intervals.                                     -/
/- ------------------------------------------------------------------ -/

/-- C5 counterexample: on the inverted interval start 18267 (Monday
2020-01-06), end 18260 (Monday 2019-12-30), the busday-count based
implementation returns -4, not 0 as the claim states for every
implementation. -/
theorem C5_counterexample :
    business_days_solution [] 18267 18260 "DE" = -4 ∧
    business_days_solution [] 18267 18260 "DE" ≠ 0 := by
  constructor
  · decide
  · decide

/-- C5 amended: when start > end the two per-day implementations return 0 and
none of the three raises (all are total functions); the busday-count based
implementation returns a non-positive integer, possibly negative. -/
theorem C5_inverted_interval (hm : HolidayMap) (start_date end_date : Nat)
    (country_name : String) (h : end_date < start_date) :
    calculate_business_days_lenovo hm start_date end_date country_name = 0 ∧
    calculate_business_days_puthon hm start_date end_date country_name = 0 ∧
    business_days_solution hm start_date end_date country_name ≤ 0 := by
  have hempty : date_range start_date end_date = [] := by
    unfold date_range
    rw [if_neg (by omega)]
  refine ⟨?_, ?_, ?_⟩
  · unfold calculate_business_days_lenovo
    rw [hempty]
    rfl
  · unfold calculate_business_days_puthon
    rw [hempty]
    cases COUNTRY_MAPPING country_name <;> rfl
  · unfold business_days_solution np_busday_count
    split
    · have hz : end_date + 1 - start_date = 0 := by omega
      rw [hz]
      rfl
    · simp only [Left.neg_nonpos_iff]
      exact Int.ofNat_nonneg _

/-- C5 amended witness: at start 18267, end 18260 the per-day implementations
return 0 and the busday-count implementation returns a non-positive value. -/
theorem C5_inverted_interval_witness :
    calculate_business_days_lenovo [] 18267 18260 "Germany" = 0 ∧
    calculate_business_days_puthon [] 18267 18260 "Germany" = 0 ∧
    business_days_solution [] 18267 18260 "Germany" ≤ 0 :=
  C5_inverted_interval [] 18267 18260 "Germany" (by decide)

/- ------------------------------------------------------------------ -/
/- Classification.                                                     -/
/- ------------------------------------------------------------------ -/

/-- C2: with a present lead time, classification returns Hit exactly when the
business-day count is at most the threshold; in particular equality is a Hit
(the threshold is inclusive). -/
theorem C2_classification (b t : Nat) :
    (determine_hit_miss b (some t) = Status.Hit ↔ b ≤ t) ∧
    determine_hit_miss t (some t) = Status.Hit := by
  constructor
  · constructor
    · intro hhit
      by_contra hle
      simp [determine_hit_miss, leNaN, hle] at hhit
    · intro hle
      simp [determine_hit_miss, leNaN, hle]
  · simp [determine_hit_miss, leNaN]

/- ------------------------------------------------------------------ -/
/- Aggregation lemmas.                                                 -/
/- ------------------------------------------------------------------ -/

theorem aggregate_countries_eq (rows : List ResultRow) :
    (aggregate_by_country rows).map (fun a => a.country)
      = (rows.map (fun r => r.country)).toFinset.sort (· ≤ ·) := by
  unfold aggregate_by_country
  rw [List.map_map]
  exact List.map_id _

theorem mem_aggregate_countries (rows : List ResultRow) (c : String) :
    c ∈ (aggregate_by_country rows).map (fun a => a.country)
      ↔ c ∈ rows.map (fun r => r.country) := by
  rw [aggregate_countries_eq]
  simp [Finset.mem_sort]

theorem hit_rate_formula (H M : Nat) :
    round2 (if 0 < H + M then (H : ℚ) / ((H + M : ℕ) : ℚ) * 100 else 0)
      = if H + M = 0 then 0
        else round2 ((H : ℚ) / ((H : ℚ) + (M : ℚ)) * 100) := by
  rcases Nat.eq_zero_or_pos (H + M) with h0 | h0
  · rw [if_neg (by omega), if_pos h0]
    simp [round2]
  · rw [if_pos h0, if_neg (by omega)]
    norm_num

/-- C6: the aggregation emits exactly one row per distinct country of the
input, in lexicographically sorted order, and each row's hit rate is the
rounded percentage of hits, defined as 0 when the row has no records, with
the division guarded. -/
theorem C6_aggregation (rows : List ResultRow) :
    ((aggregate_by_country rows).map (fun a => a.country)).Nodup ∧
    List.Sorted (· ≤ ·) ((aggregate_by_country rows).map (fun a => a.country)) ∧
    (∀ c : String, c ∈ (aggregate_by_country rows).map (fun a => a.country)
        ↔ c ∈ rows.map (fun r => r.country)) ∧
    ∀ a ∈ aggregate_by_country rows,
      a.hit_rate_pct =
        if a.hit_count + a.miss_count = 0 then 0
        else round2 ((a.hit_count : ℚ)
          / ((a.hit_count : ℚ) + (a.miss_count : ℚ)) * 100) := by
  refine ⟨?_, ?_, mem_aggregate_countries rows, ?_⟩
  · rw [aggregate_countries_eq]
    exact Finset.sort_nodup _ _
  · rw [aggregate_countries_eq]
    exact Finset.sort_sorted _ _
  · intro a ha
    unfold aggregate_by_country at ha
    obtain ⟨c, hc, rfl⟩ := List.mem_map.mp ha
    dsimp only
    exact hit_rate_formula _ _

/-- C6 witness: one Czech Hit row aggregates to one row with hit rate 100,
matching the rounded formula. -/
theorem C6_aggregation_witness :
    ({ country := "Czechia", hit_count := 1, miss_count := 0, hit_rate_pct := 100 }
        : CountryAggregate).hit_rate_pct
      = if ({ country := "Czechia", hit_count := 1, miss_count := 0,
              hit_rate_pct := 100 } : CountryAggregate).hit_count
          + ({ country := "Czechia", hit_count := 1, miss_count := 0,
               hit_rate_pct := 100 } : CountryAggregate).miss_count = 0 then 0
        else round2
          ((({ country := "Czechia", hit_count := 1, miss_count := 0,
               hit_rate_pct := 100 } : CountryAggregate).hit_count : ℚ)
            / ((({ country := "Czechia", hit_count := 1, miss_count := 0,
                   hit_rate_pct := 100 } : CountryAggregate).hit_count : ℚ)
              + (({ country := "Czechia", hit_count := 1, miss_count := 0,
                    hit_rate_pct := 100 } : CountryAggregate).miss_count : ℚ)) * 100) :=
  (C6_aggregation
    [{ id := "r1", country := "Czechia", business_days := 2,
       lead_time := some 3, status := Status.Hit }]).2.2.2 _ (by
    have hs : ((([{ id := "r1", country := "Czechia", business_days := 2,
                    lead_time := some 3, status := Status.Hit }] : List ResultRow).map
            (fun r => r.country)).toFinset.sort (· ≤ ·)) = ["Czechia"] := by
      simp [Finset.sort_singleton]
    simp only [aggregate_by_country, hs, List.map_cons, List.map_nil]
    norm_num [List.countP_cons, round2, round_eq]
    simp only [if_neg (by decide : ¬ (Status.Hit = Status.Miss))]
    norm_num)

/- ------------------------------------------------------------------ -/
/- Missing lead times.                                                 -/
/- ------------------------------------------------------------------ -/

/-- C9: a record whose country has no lead-time row is merged with a null
lead time, silently classified Miss, and remains present both in the
detailed results and (through its country) in the per-country aggregation. -/
theorem C9_missing_lead_time_is_miss (hm : HolidayMap)
    (lead_times : List (String × Nat)) (records : List RepairRecord)
    (r : RepairRecord) (hr : r ∈ records)
    (hnone : lead_times.lookup r.country = none) :
    ∃ row ∈ run_pipeline hm lead_times records,
      row.id = r.id ∧ row.country = r.country ∧ row.lead_time = none ∧
      row.status = Status.Miss ∧
      row.country ∈ (aggregate_by_country (run_pipeline hm lead_times records)).map
        (fun a => a.country) := by
  have hlt : merge_lead_time lead_times r.country = none := hnone
  refine ⟨_, List.mem_map_of_mem _ hr, rfl, rfl, hlt, ?_, ?_⟩
  · dsimp only
    rw [hlt]
    simp [determine_hit_miss, leNaN]
  · exact (mem_aggregate_countries _ _).mpr
      (List.mem_map.mpr ⟨_, List.mem_map_of_mem _ hr, rfl⟩)

/-- C9 witness: lead-time table for Slovakia only, an Austrian repair record
on Monday 18260: it ends up in the results with a null lead time, status
Miss, and Austria appears in the aggregation. -/
theorem C9_missing_lead_time_is_miss_witness :
    ∃ row ∈ run_pipeline [] [("Slovakia", 3)]
        [{ id := "ID7", country := "Austria", start_date := 18260, end_date := 18260 }],
      row.id = "ID7" ∧ row.country = "Austria" ∧ row.lead_time = none ∧
      row.status = Status.Miss ∧
      row.country ∈ (aggregate_by_country (run_pipeline [] [("Slovakia", 3)]
        [{ id := "ID7", country := "Austria",
           start_date := 18260, end_date := 18260 }])).map (fun a => a.country) :=
  C9_missing_lead_time_is_miss [] [("Slovakia", 3)]
    [{ id := "ID7", country := "Austria", start_date := 18260, end_date := 18260 }]
    { id := "ID7", country := "Austria", start_date := 18260, end_date := 18260 }
    (by decide) (by decide)

/-- C4 counterexample: with lead-time table {Slovakia ↦ 3} and an Austrian
record, no error of any kind is produced; the pipeline classifies the record
as Miss against an absent (null) threshold, contradicting the claim that
classification fails with a MissingConfiguration error surfaced to the
caller. -/
theorem C4_counterexample :
    run_pipeline [] [("Slovakia", 3)]
        [{ id := "ID1", country := "Austria", start_date := 18260, end_date := 18260 }]
      = [{ id := "ID1", country := "Austria", business_days := 1,
           lead_time := none, status := Status.Miss }] := by
  decide

/-- C4 amended: the pipeline never fails and never drops a record; a record
whose country has no lead-time row is carried through with a null lead time
and classified Miss. -/
theorem C4_missing_lead_time_behavior (hm : HolidayMap)
    (lead_times : List (String × Nat)) (records : List RepairRecord) :
    (run_pipeline hm lead_times records).length = records.length ∧
    ∀ row ∈ run_pipeline hm lead_times records,
      lead_times.lookup row.country = none →
        row.lead_time = none ∧ row.status = Status.Miss := by
  constructor
  · exact List.length_map _ _
  · intro row hrow hnone
    obtain ⟨r, hr, rfl⟩ := List.mem_map.mp hrow
    have hlt : merge_lead_time lead_times r.country = none := hnone
    refine ⟨hlt, ?_⟩
    dsimp only
    rw [hlt]
    simp [determine_hit_miss, leNaN]

/-- C4 amended witness: the concrete Austrian record with a Slovakia-only
lead-time table flows through as one result row with null lead time and
status Miss. -/
theorem C4_missing_lead_time_behavior_witness :
    (run_pipeline [] [("Slovakia", 3)]
        [{ id := "ID1", country := "Austria",
           start_date := 18260, end_date := 18260 }]).length = 1 ∧
    (({ id := "ID1", country := "Austria", business_days := 1, lead_time := none,
        status := Status.Miss } : ResultRow).lead_time = none ∧
      ({ id := "ID1", country := "Austria", business_days := 1, lead_time := none,
         status := Status.Miss } : ResultRow).status = Status.Miss) :=
  ⟨(C4_missing_lead_time_behavior [] [("Slovakia", 3)]
      [{ id := "ID1", country := "Austria",
         start_date := 18260, end_date := 18260 }]).1,
   (C4_missing_lead_time_behavior [] [("Slovakia", 3)]
      [{ id := "ID1", country := "Austria",
         start_date := 18260, end_date := 18260 }]).2 _ (by decide) (by decide)⟩

/-- C3: code behavior at an unresolvable country name: the mapping yields
None, yet both per-day implementations still compute a count over the week
18260..18266 (5 weekdays with an empty holiday set in `lenovo_task.py`, all 7
calendar days in `puthon_task.py`), and the pipeline keeps the record instead
of excluding it. -/
theorem C3_unmapped_country_code_behavior :
    COUNTRY_MAPPING "Poland" = none ∧
    calculate_business_days_lenovo [] 18260 18266 "Poland" = 5 ∧
    calculate_business_days_puthon [] 18260 18266 "Poland" = 7 ∧
    (run_pipeline [] []
      [{ id := "r1", country := "Poland",
         start_date := 18260, end_date := 18266 }]).length = 1 := by
  decide
